import Mathlib

/-!
Verification of the rpc-ssl-proxy request-plane engine.

Shallow embedding of the JavaScript source:
  * strings are lists of characters (`Str`);
  * JSON bodies are `JSValue`s (JavaScript `undefined` is modelled by an
    absent object field, i.e. a `none` result of `getField`);
  * JavaScript objects used as count maps are association lists updated
    in place (`addToCountMap`);
  * asynchronous functions become pure state transformers, with the
    outcomes of upstream HTTP calls and database queries passed in as
    explicit parameters.
-/

namespace RpcProxy

/-- Strings as character lists (JavaScript strings). -/
abbrev Str := List Char

/-- JavaScript `String.prototype.includes`. -/
def containsStr (s : Str) (sub : Str) : Bool :=
  match s with
  | [] => sub.isEmpty
  | _ :: t => sub.isPrefixOf s || containsStr t sub

/-- Decimal rendering of a natural number (for batch-item indices). -/
def natStr (n : Nat) : Str := Nat.toDigits 10 n

/-- JavaScript values as delivered by `body-parser` (`undefined` is the
absence of a field, not a `JSValue`). -/
inductive JSValue where
  | jnull
  | jbool (b : Bool)
  | jnum (n : Int)
  | jstr (s : Str)
  | jarr (elems : List JSValue)
  | jobj (fields : List (Str × JSValue))

namespace JSValue

/-- JavaScript truthiness. -/
def truthy : JSValue → Bool
  | jnull => false
  | jbool b => b
  | jnum n => decide (n ≠ 0)
  | jstr s => decide (s ≠ [])
  | jarr _ => true
  | jobj _ => true

/-- `typeof v === 'object'` (arrays and `null` included). -/
def typeofObject : JSValue → Bool
  | jnull => true
  | jarr _ => true
  | jobj _ => true
  | _ => false

/-- Field access `v?.k`; `none` models JavaScript `undefined`. -/
def getField : JSValue → Str → Option JSValue
  | jobj fields, k => lookupField fields k
  | _, _ => none
where lookupField : List (Str × JSValue) → Str → Option JSValue
  | [], _ => none
  | (k', v) :: rest, k => if k' = k then some v else lookupField rest k

end JSValue

/-- JavaScript `x ?? null`. -/
def jsValOrNull : Option JSValue → JSValue
  | none => JSValue.jnull
  | some v => v

/-! ### Request validator (`utils/requestValidator.js`) -/

/-- The blocked RPC namespaces (`BLOCKED_NAMESPACES`). -/
def BLOCKED_NAMESPACES : List Str :=
  [("admin_").data, ("personal_").data, ("debug_").data, ("miner_").data,
   ("engine_").data, ("clique_").data, ("les_").data]

/-- `getBlockedNamespace(method)`: for a string method starting with a
blocked namespace, that namespace with the trailing underscore removed
(`namespace.slice(0, -1)`); otherwise `null`.  Non-string methods yield
`null`. -/
def getBlockedNamespace (method : Option JSValue) : Option Str :=
  match method with
  | some (JSValue.jstr s) => firstBlocked BLOCKED_NAMESPACES s
  | _ => none
where firstBlocked : List Str → Str → Option Str
  | [], _ => none
  | ns :: rest, s => if ns.isPrefixOf s then some ns.dropLast else firstBlocked rest s

def keyJsonrpc : Str := ("jsonrpc").data
def keyMethod : Str := ("method").data
def keyId : Str := ("id").data

/-- The version string literal compared against the `jsonrpc` field. -/
def str20 : Str := ("2.0").data

/-- `!jsonrpc || jsonrpc !== "2.0"`, over the extracted field: only the
string value `"2.0"` passes. -/
def jsonrpcBad (r : JSValue) : Bool :=
  match r.getField keyJsonrpc with
  | some (JSValue.jstr s) => decide (s ≠ str20)
  | _ => true

/-- `!method`: the `method` field is absent or falsy. -/
def methodBad (r : JSValue) : Bool :=
  match r.getField keyMethod with
  | none => true
  | some v => !v.truthy

/-- `id === undefined`: the `id` field is absent. -/
def idBad (r : JSValue) : Bool :=
  (r.getField keyId).isNone

/-- The structural test `!jsonrpc || jsonrpc !== "2.0" || !method || id === undefined`. -/
def structurallyInvalid (r : JSValue) : Bool :=
  jsonrpcBad r || methodBad r || idBad r

/-- `if (!jsonrpc) push('jsonrpc missing') else if (jsonrpc !== "2.0") push(...)`. -/
def jsonrpcReasons (r : JSValue) : List Str :=
  match r.getField keyJsonrpc with
  | none => [("jsonrpc missing").data]
  | some (JSValue.jstr s) =>
    if s = [] then [("jsonrpc missing").data]
    else if s = str20 then []
    else [("jsonrpc must be \"2.0\"").data]
  | some v =>
    if v.truthy then [("jsonrpc must be \"2.0\"").data]
    else [("jsonrpc missing").data]

/-- The `reason` list pushed for an invalid request object. -/
def invalidReasons (r : JSValue) : List Str :=
  jsonrpcReasons r
  ++ (if methodBad r then [("method missing").data] else [])
  ++ (if idBad r then [("id missing").data] else [])

/-- `reason.join(", ")`. -/
def joinComma : List Str → Str
  | [] => []
  | [s] => s
  | s :: rest => s ++ (", ").data ++ joinComma rest

/-- Single-quote character, used by the blocked-namespace error text. -/
def sq : Char := Char.ofNat 39

/-- `Method not supported: The '<ns>' namespace is not available on this endpoint`. -/
def blockedMsg (ns : Str) : Str :=
  ("Method not supported: The ").data ++ [sq] ++ ns ++ [sq] ++
    (" namespace is not available on this endpoint").data

/-- `Invalid Request: <reasons>`. -/
def invalidSingleMsg (r : JSValue) : Str :=
  ("Invalid Request: ").data ++ joinComma (invalidReasons r)

/-- `Invalid Request: Batch item <i>: <reasons>`. -/
def invalidBatchMsg (i : Nat) (r : JSValue) : Str :=
  ("Invalid Request: Batch item ").data ++ natStr i ++ (": ").data ++
    joinComma (invalidReasons r)

/-- Outcome of the validator middleware: a JSON-RPC error response (with
its HTTP status, always 200) sent by `sendErrorAndLog`, or `next()`. -/
inductive VResult where
  | reject (status : Nat) (code : Int) (ident : JSValue) (msg : Str)
  | pass

/-- The per-item loop of the batch branch of `validateRpcRequest`. -/
def validateBatchItems (i : Nat) : List JSValue → VResult
  | [] => VResult.pass
  | r :: rest =>
    if structurallyInvalid r then
      VResult.reject 200 (-32600) (jsValOrNull (r.getField keyId)) (invalidBatchMsg i r)
    else
      match getBlockedNamespace (r.getField keyMethod) with
      | some ns => VResult.reject 200 (-32601) (jsValOrNull (r.getField keyId)) (blockedMsg ns)
      | none => validateBatchItems (i + 1) rest

/-- `validateRpcRequest` on a parsed POST body (non-POST requests bypass
the middleware and are not modelled). -/
def validateRpcRequest (body : JSValue) : VResult :=
  if !body.truthy || !body.typeofObject then
    VResult.reject 200 (-32700) JSValue.jnull (("Parse error: Invalid JSON or empty request body").data)
  else
    match body with
    | JSValue.jarr items =>
      if items.isEmpty then
        VResult.reject 200 (-32600) JSValue.jnull (("Invalid Request: Batch request cannot be empty").data)
      else validateBatchItems 0 items
    | _ =>
      if structurallyInvalid body then
        VResult.reject 200 (-32600) (jsValOrNull (body.getField keyId)) (invalidSingleMsg body)
      else
        match getBlockedNamespace (body.getField keyMethod) with
        | some ns => VResult.reject 200 (-32601) (jsValOrNull (body.getField keyId)) (blockedMsg ns)
        | none => VResult.pass

/-! ### Circuit breaker (`utils/circuitBreaker.js`)

Timestamps (`Date.now()`) are passed explicitly, in milliseconds.
Alert side effects (`sendOpenAlert` / `sendCloseAlert`) have no bearing on
state and are not modelled. -/

/-- JavaScript `String.prototype.trim` over a whitespace kind matching the
characters the repository actually feeds it. -/
def trimStr (s : Str) : Str :=
  ((s.dropWhile isWSChar).reverse.dropWhile isWSChar).reverse
where isWSChar (c : Char) : Bool := c = ' ' || c = '\t' || c = '\n' || c = '\r'

inductive CBState where
  | CLOSED
  | OPEN
  | HALF_OPEN
deriving DecidableEq, Repr

structure CircuitBreaker where
  hasFallback : Bool
  failureThreshold : Nat
  resetTimeout : Nat
  state : CBState
  consecutiveFailures : Nat
  lastFailureTime : Nat
  isUsingFallback : Bool
  previousState : CBState
deriving DecidableEq, Repr

/-- The constructor: `hasFallback` is false iff the fallback URL is absent
or blank; state starts `CLOSED`.  The server passes `failureThreshold: 2`,
`resetTimeout: 60000`, `requestTimeout: 10000`. -/
def mkCircuitBreaker (fallbackUrl : Option Str) (failureThreshold resetTimeout : Nat) :
    CircuitBreaker :=
  { hasFallback :=
      match fallbackUrl with
      | none => false
      | some u => !(trimStr u).isEmpty
    failureThreshold := failureThreshold
    resetTimeout := resetTimeout
    state := CBState.CLOSED
    consecutiveFailures := 0
    lastFailureTime := 0
    isUsingFallback := false
    previousState := CBState.CLOSED }

namespace CircuitBreaker

/-- `onSuccess()`: `HALF_OPEN → CLOSED`, failures reset, `previousState`
updated to the (new) state. -/
def onSuccess (cb : CircuitBreaker) : CircuitBreaker :=
  let s := if cb.state = CBState.HALF_OPEN then CBState.CLOSED else cb.state
  { cb with state := s, consecutiveFailures := 0, previousState := s }

/-- `onFailure(error)` at time `now`. -/
def onFailure (cb : CircuitBreaker) (now : Nat) : CircuitBreaker :=
  let cf := cb.consecutiveFailures + 1
  let cb1 := { cb with consecutiveFailures := cf, lastFailureTime := now }
  if cb.state = CBState.HALF_OPEN then
    { cb1 with state := CBState.OPEN, isUsingFallback := true, previousState := CBState.OPEN }
  else if cf ≥ cb.failureThreshold ∧ cb.state = CBState.CLOSED then
    if cb.hasFallback then
      { cb1 with state := CBState.OPEN, isUsingFallback := true, previousState := CBState.OPEN }
    else
      { cb1 with previousState := cb1.state }
  else
    { cb1 with previousState := cb1.state }

inductive UrlChoice where
  | primary
  | fallback
deriving DecidableEq, Repr

/-- `getCurrentUrl()` at time `now`: returns the updated breaker and which
upstream URL the breaker selects. -/
def getCurrentUrl (cb : CircuitBreaker) (now : Nat) : CircuitBreaker × UrlChoice :=
  match cb.state with
  | CBState.CLOSED => ({ cb with isUsingFallback := false }, UrlChoice.primary)
  | CBState.OPEN =>
    if now - cb.lastFailureTime ≥ cb.resetTimeout then
      ({ cb with state := CBState.HALF_OPEN, isUsingFallback := false }, UrlChoice.primary)
    else if !cb.hasFallback then
      ({ cb with isUsingFallback := false }, UrlChoice.primary)
    else
      ({ cb with isUsingFallback := true }, UrlChoice.fallback)
  | CBState.HALF_OPEN => ({ cb with isUsingFallback := false }, UrlChoice.primary)

end CircuitBreaker

/-- A success or failure outcome reported to the breaker by the
dispatcher (`makePrimaryRequest` on a POST). -/
inductive CBEvent where
  | success
  | failure (now : Nat)

/-- Apply one dispatcher outcome to the breaker. -/
def applyCBEvent (cb : CircuitBreaker) : CBEvent → CircuitBreaker
  | CBEvent.success => cb.onSuccess
  | CBEvent.failure now => cb.onFailure now

/-! ### Aggregator maps (`utils/backgroundTasks.js`, origin-aware variant)

JavaScript count-map objects become association lists; `m[k] = (m[k]||0)+n`
updates the existing binding in place or appends a new one. -/

/-- `m[k] = (m[k] || 0) + n` on a count-map object. -/
def addToCountMap (m : List (Str × Nat)) (k : Str) (n : Nat) : List (Str × Nat) :=
  match m with
  | [] => [(k, n)]
  | (k', v) :: rest => if k' = k then (k', v + n) :: rest else (k', v) :: addToCountMap rest k n

/-- First-match lookup with default 0 (JavaScript `m[k] || 0`). -/
def countOf (m : List (Str × Nat)) (k : Str) : Nat :=
  match m with
  | [] => 0
  | (k', v) :: rest => if k' = k then v else countOf rest k

/-- `stripProtocol(url)`: drop a leading `https?://` and one trailing `/`. -/
def stripProtocol (url : Str) : Str :=
  dropTrailingSlash (dropHttpScheme url)
where
  dropHttpScheme (s : Str) : Str :=
    if (("https://").data).isPrefixOf s then s.drop 8
    else if (("http://").data).isPrefixOf s then s.drop 7
    else s
  dropTrailingSlash (s : Str) : Str :=
    if s.getLast? = some '/' then s.dropLast else s

/-- `updateUrlCountMap(origin, count)`. -/
def updateUrlCountMap (m : List (Str × Nat)) (origin : Str) (count : Nat) :
    List (Str × Nat) :=
  if origin = [] then m
  else
    let cleanOrigin := stripProtocol origin
    if containsStr cleanOrigin (("localhost").data) then m
    else if cleanOrigin = ("buidlguidl-client").data then m
    else addToCountMap m cleanOrigin count

/-- One entry of `ipCountMap`. -/
structure IpEntry where
  count : Nat
  origins : List (Str × Nat)
deriving DecidableEq, Repr

/-- In-place update-or-append on `ipCountMap`, initializing a missing
entry to `{count: 0, origins: {}}` first. -/
def updateIpEntry (m : List (Str × IpEntry)) (ip : Str) (f : IpEntry → IpEntry) :
    List (Str × IpEntry) :=
  match m with
  | [] => [(ip, f { count := 0, origins := [] })]
  | (k, e) :: rest => if k = ip then (k, f e) :: rest else (k, e) :: updateIpEntry rest ip f

/-- `updateIpCountMap(ip, origin, count)` (three-argument, origin-aware
variant).  The total count is incremented before the origin checks; the
early returns inside the origin block skip only the per-origin update. -/
def updateIpCountMap (m : List (Str × IpEntry)) (ip : Str) (origin : Option Str)
    (count : Nat) : List (Str × IpEntry) :=
  if ip = [] ∨ ip = ("unknown").data then m
  else if ip = ("127.0.0.1").data ∨ ip = ("::1").data ∨ (("localhost").data).isPrefixOf ip then m
  else
    updateIpEntry m ip fun e =>
      let e1 : IpEntry := { e with count := e.count + count }
      match origin with
      | none => e1
      | some o =>
        if o = [] ∨ o = ("unknown").data then e1
        else
          let cleanOrigin := stripProtocol o
          if cleanOrigin = [] then e1
          else if containsStr cleanOrigin (("localhost").data) then e1
          else { e1 with origins := addToCountMap e1.origins cleanOrigin count }

/-- The aggregator's two live maps. -/
structure AggState where
  urlCountMap : List (Str × Nat)
  ipCountMap : List (Str × IpEntry)
deriving Repr

/-! ### The POST handler (`app.post("/")` in the proxy server)

The upstream HTTP outcomes are parameters; the handler reads the stale
`isCurrentlyUsingFallback()` flag first, then calls `getCurrentUrl()`,
then dispatches and finally credits the aggregator only on a primary
success with truthy response data. -/

/-- Outcome of one upstream HTTP call: `axios` resolves with response
data, or rejects. -/
inductive UpstreamOutcome where
  | ok (data : JSValue) (status : Nat)
  | fail (status : Option Nat)

/-- Which upstream actually served the POST (or that it errored out). -/
inductive PostServed where
  | fallbackBreaker
  | fallbackRetry
  | primary
  | errorResponse (status : Nat)
deriving DecidableEq, Repr

structure PostRequest where
  body : JSValue
  ip : Str
  origin : Option Str

structure PostResult where
  agg : AggState
  breaker : CircuitBreaker
  served : PostServed

/-- `Array.isArray(req.body) ? req.body.length : 1`. -/
def requestCount : JSValue → Nat
  | JSValue.jarr xs => xs.length
  | _ => 1

/-- The Firebase-counting block guarded by
`!actuallyUsedFallback && responseData && req.headers`. -/
def creditAggregator (agg : AggState) (req : PostRequest) (n : Nat) : AggState :=
  let agg1 : AggState :=
    { agg with ipCountMap := updateIpCountMap agg.ipCountMap req.ip req.origin n }
  match req.origin with
  | some o => if o ≠ [] then { agg1 with urlCountMap := updateUrlCountMap agg1.urlCountMap o n } else agg1
  | none => agg1

/-- `app.post("/")`: breaker consultation, dispatch, immediate fallback
retry, and the aggregator accounting rule. -/
def handlePost (cb : CircuitBreaker) (now : Nat) (req : PostRequest)
    (primaryResult fallbackResult : UpstreamOutcome) (agg : AggState) : PostResult :=
  let isUsingFallback := cb.isUsingFallback
  let cbu := (cb.getCurrentUrl now).fst
  if isUsingFallback then
    match fallbackResult with
    | UpstreamOutcome.ok _ _ =>
      { agg := agg, breaker := cbu, served := PostServed.fallbackBreaker }
    | UpstreamOutcome.fail st =>
      { agg := agg, breaker := cbu, served := PostServed.errorResponse (st.getD 500) }
  else
    match primaryResult with
    | UpstreamOutcome.ok d _ =>
      let cb2 := cbu.onSuccess
      if d.truthy then
        { agg := creditAggregator agg req (requestCount req.body), breaker := cb2,
          served := PostServed.primary }
      else
        { agg := agg, breaker := cb2, served := PostServed.primary }
    | UpstreamOutcome.fail _ =>
      let cb2 := cbu.onFailure now
      match fallbackResult with
      | UpstreamOutcome.ok _ _ =>
        { agg := agg, breaker := cb2, served := PostServed.fallbackRetry }
      | UpstreamOutcome.fail st =>
        { agg := agg, breaker := cb2, served := PostServed.errorResponse (st.getD 500) }

/-! ### Aggregator flush cycle

The flush loop that pairs with the relational store adapter is not part
of the checked-in sources (only Firebase-era variants are, and
`updateRDSWithIpRequests` ends with `// Throw the error so
backgroundTasks can restore the data`), so the cycle is modelled from
the specification. -/

/-- ADD-merge of a swapped count map back into a live count map, summing
counts per key. -/
def mergeCountMaps (live swapped : List (Str × Nat)) : List (Str × Nat) :=
  swapped.foldl (fun acc kv => addToCountMap acc kv.fst kv.snd) live

/-- ADD-merge of one swapped `ipCountMap` entry into a live map: counts
are summed and the per-origin sub-map is ADD-merged. -/
def addIpToMap (m : List (Str × IpEntry)) (ip : Str) (e : IpEntry) : List (Str × IpEntry) :=
  match m with
  | [] => [(ip, e)]
  | (k, e') :: rest =>
    if k = ip then
      (k, { count := e'.count + e.count, origins := mergeCountMaps e'.origins e.origins }) :: rest
    else (k, e') :: addIpToMap rest ip e

/-- ADD-merge of a swapped `ipCountMap` back into a live one. -/
def mergeIpCountMaps (live swapped : List (Str × IpEntry)) : List (Str × IpEntry) :=
  swapped.foldl (fun acc kv => addIpToMap acc kv.fst kv.snd) live

/-- Modelled from the spec: the aggregator flush cycle
(`processBackgroundTasks`).  The checked-in `backgroundTasks.js` variants
predate the relational store adapter and drop the swapped maps on
failure; the current loop described by spec section 4.7 swaps both
sub-maps out, runs the origin-demand update and the per-IP store update,
and on any failure of either merges the swapped values back into the
live maps (summing counts per key and per-origin sub-counts per IP).
`liveAtSwap` is the aggregator content swapped out at the start of the
cycle; `accrued` is what request threads added to the fresh maps while
the updates ran. -/
def processBackgroundTasks (liveAtSwap accrued : AggState)
    (originUpdateFailed ipUpdateFailed : Bool) : AggState :=
  let swappedUrl := liveAtSwap.urlCountMap
  let swappedIp := liveAtSwap.ipCountMap
  if originUpdateFailed || ipUpdateFailed then
    { urlCountMap := mergeCountMaps accrued.urlCountMap swappedUrl
      ipCountMap := mergeIpCountMaps accrued.ipCountMap swappedIp }
  else accrued

/-- Total count credited to a key across a count map (sums duplicate
bindings, so it is well defined on arbitrary association lists). -/
def totalCountOf : List (Str × Nat) → Str → Nat
  | [], _ => 0
  | (k', v) :: rest, k => (if k' = k then v else 0) + totalCountOf rest k

/-- Total request count credited to an IP across an `ipCountMap`. -/
def ipTotalOf : List (Str × IpEntry) → Str → Nat
  | [], _ => 0
  | (k', e) :: rest, k => (if k' = k then e.count else 0) + ipTotalOf rest k

/-- Total per-origin count credited to `(ip, origin)` across an `ipCountMap`. -/
def ipOriginTotalOf : List (Str × IpEntry) → Str → Str → Nat
  | [], _, _ => 0
  | (k', e) :: rest, k, o => (if k' = k then totalCountOf e.origins o else 0) + ipOriginTotalOf rest k o

/-! ### Rate limiter poll — IP side (`pollRateLimitData`, sliding-window variant)

The poll's origin-side processing writes disjoint state and is not needed
by any claim; the IP-side queries and set construction are embedded.
The SQL `ORDER BY ... LIMIT 10000` cap does not change which rows are
returned when the table has at most 10000 qualifying rows, which the
theorems assume; real weights are exact here (rationals). -/

/-- `getPreviousHourWeight()`: `1 - (minutes + seconds/60)/60`. -/
def getPreviousHourWeight (minutes seconds : ℚ) : ℚ :=
  1 - (minutes + seconds / 60) / 60

/-- One `ip_table` row as read by the limiter poll. -/
structure IpRow where
  ip : Str
  requests_last_hour : Nat
  requests_previous_hour : Nat
  origins_last_hour : List (Str × Nat)
  origins_previous_hour : List (Str × Nat)
  requests_today : Nat
  origins_today : List (Str × Nat)

/-- `SUM(value)` over a JSONB origin map. -/
def sumVals (m : List (Str × Nat)) : Nat :=
  m.foldl (fun a kv => a + kv.snd) 0

/-- `effective_requests - (origin_requests_current + origin_requests_previous * w)`:
the effective no-origin request count of a row. -/
def effectiveNoOrigin (r : IpRow) (w : ℚ) : ℚ :=
  ((r.requests_last_hour : ℚ) + (r.requests_previous_hour : ℚ) * w)
    - ((sumVals r.origins_last_hour : ℚ) + (sumVals r.origins_previous_hour : ℚ) * w)

/-- The limiter's IP-side state rebuilt by one poll. -/
structure IpPollState where
  blockedIPs : List Str
  ipCurrentHour : List (Str × Int)
  ipPreviousHour : List (Str × Int)
  ipEffective : List (Str × Int)
  dailyBlockedIPs : List Str
  ipDailyCounts : List (Str × Int)

/-- The IP side of `pollRateLimitData` (sliding-window variant): the
hourly query returns rows with `requests_last_hour > 0 OR
requests_previous_hour > 0`; an IP is hourly-blocked iff its effective
no-origin count strictly exceeds `ipRateLimitPerHour`; the daily query
returns rows with `requests_today > 0` and blocks on the no-origin
portion of `requests_today`. -/
def pollRateLimitDataIp (rows : List IpRow) (w : ℚ) (hasDailyLimit : Bool)
    (ipRateLimitPerHour ipRateLimitPerDay : ℚ) : IpPollState :=
  let hourlyRows := rows.filter fun r =>
    decide (r.requests_last_hour > 0) || decide (r.requests_previous_hour > 0)
  let noOriginCurrent := fun (r : IpRow) => (r.requests_last_hour : Int) - (sumVals r.origins_last_hour : Int)
  let noOriginPrevious := fun (r : IpRow) => (r.requests_previous_hour : Int) - (sumVals r.origins_previous_hour : Int)
  let stored := fun (r : IpRow) =>
    decide (noOriginCurrent r > 0) || decide (noOriginPrevious r > 0) || decide (effectiveNoOrigin r w > 0)
  let dailyRows := rows.filter fun r => decide (r.requests_today > 0)
  let noOriginDaily := fun (r : IpRow) => (r.requests_today : Int) - (sumVals r.origins_today : Int)
  { blockedIPs := hourlyRows.filterMap fun r =>
      if effectiveNoOrigin r w > ipRateLimitPerHour then some r.ip else none
    ipCurrentHour := hourlyRows.filterMap fun r =>
      if stored r then some (r.ip, noOriginCurrent r) else none
    ipPreviousHour := hourlyRows.filterMap fun r =>
      if stored r then some (r.ip, noOriginPrevious r) else none
    ipEffective := hourlyRows.filterMap fun r =>
      if stored r then some (r.ip, round (effectiveNoOrigin r w)) else none
    dailyBlockedIPs :=
      if hasDailyLimit then
        dailyRows.filterMap fun r =>
          if (noOriginDaily r : ℚ) > ipRateLimitPerDay then some r.ip else none
      else []
    ipDailyCounts :=
      if hasDailyLimit then
        dailyRows.filterMap fun r =>
          if noOriginDaily r > 0 then some (r.ip, noOriginDaily r) else none
      else [] }

/-! ### Store adapter hourly reset (`resetHourlyCounters`, sliding-window
variant, with `captureHourlySnapshot` and `cleanupOldHistory`)

Database timestamps are epoch seconds. -/

/-- One `ip_table` row as touched by the hourly reset. -/
structure TableRow where
  ip : Str
  requests_last_hour : Nat
  requests_previous_hour : Nat
  origins_last_hour : List (Str × Nat)
  origins_previous_hour : List (Str × Nat)
  origins : List (Str × Nat)
  last_reset_timestamp : Nat
deriving DecidableEq, Repr

/-- One `ip_history_table` row. -/
structure HistRow where
  hour_timestamp : Nat
  ip : Str
  request_count : Nat
  origins : List (Str × Nat)
deriving DecidableEq, Repr

/-- The store-adapter state the hourly reset touches. -/
structure StoreState where
  lastGlobalReset : Option Nat
  lastCleanupTimestamp : Option Nat
  ip_table : List TableRow
  ip_history_table : List HistRow
deriving DecidableEq, Repr

/-- `getStartOfCurrentHour`. -/
def getStartOfCurrentHour (ts : Nat) : Nat := ts / 3600 * 3600

/-- Does the history table already hold a row for `(hour_timestamp, ip)`? -/
def histHasKey (hist : List HistRow) (ts : Nat) (ip : Str) : Bool :=
  hist.any fun h => decide (h.hour_timestamp = ts) && decide (h.ip = ip)

/-- `INSERT ... ON CONFLICT (hour_timestamp, ip) DO NOTHING`. -/
def insertHistIgnore (hist : List HistRow) (h : HistRow) : List HistRow :=
  if histHasKey hist h.hour_timestamp h.ip then hist else hist ++ [h]

/-- The history row inserted for a table row by the snapshot, taking
`origins_last_hour` when that column exists and the all-time `origins`
column otherwise. -/
def mkSnapshotRow (hourTimestamp : Nat) (hasOriginsLastHour : Bool) (r : TableRow) : HistRow :=
  { hour_timestamp := hourTimestamp
    ip := r.ip
    request_count := r.requests_last_hour
    origins := if hasOriginsLastHour then r.origins_last_hour else r.origins }

/-- `captureHourlySnapshot(hourTimestamp)`: one conflict-ignoring insert
per row with `requests_last_hour > 0`. -/
def captureHourlySnapshot (hourTimestamp : Nat) (hasOriginsLastHour : Bool)
    (table : List TableRow) (hist : List HistRow) : List HistRow :=
  (table.filter fun r => decide (r.requests_last_hour > 0)).foldl
    (fun acc r => insertHistIgnore acc (mkSnapshotRow hourTimestamp hasOriginsLastHour r))
    hist

/-- Number of history rows carrying a given `(hour_timestamp, ip)` key. -/
def countHistKey (hist : List HistRow) (ts : Nat) (ip : Str) : Nat :=
  (hist.filter fun h => decide (h.hour_timestamp = ts) && decide (h.ip = ip)).length

/-- `cleanupOldHistory()`: at most once per 24 h, delete history rows
whose `hour_timestamp` is older than 30 days (2592000 s). -/
def cleanupOldHistory (now : Nat) (lastCleanup : Option Nat) (hist : List HistRow) :
    Option Nat × List HistRow :=
  match lastCleanup with
  | some t =>
    if now - t < 86400 then (lastCleanup, hist)
    else (some now, hist.filter fun h => !decide (h.hour_timestamp < now - 2592000))
  | none => (some now, hist.filter fun h => !decide (h.hour_timestamp < now - 2592000))

/-- `SELECT MIN(last_reset_timestamp) FROM ip_table`. -/
def minLastReset (table : List TableRow) : Option Nat :=
  match table with
  | [] => none
  | r :: rest => some (rest.foldl (fun a r' => min a r'.last_reset_timestamp) r.last_reset_timestamp)

/-- The per-row effect of the hourly reset `UPDATE`, by feature flags and
by whether more than one hour passed since the cached reset. -/
def shiftRow (hasSlidingWindow hasOriginsLastHour moreThanOneHour : Bool)
    (currentHourStart : Nat) (r : TableRow) : TableRow :=
  if hasSlidingWindow && hasOriginsLastHour then
    if moreThanOneHour then
      { r with requests_previous_hour := 0, origins_previous_hour := [],
               requests_last_hour := 0, origins_last_hour := [],
               last_reset_timestamp := currentHourStart }
    else
      { r with requests_previous_hour := r.requests_last_hour,
               origins_previous_hour := r.origins_last_hour,
               requests_last_hour := 0, origins_last_hour := [],
               last_reset_timestamp := currentHourStart }
  else if hasSlidingWindow then
    if moreThanOneHour then
      { r with requests_previous_hour := 0, origins_previous_hour := [],
               requests_last_hour := 0, last_reset_timestamp := currentHourStart }
    else
      { r with requests_previous_hour := r.requests_last_hour,
               requests_last_hour := 0, last_reset_timestamp := currentHourStart }
  else if hasOriginsLastHour then
    { r with requests_last_hour := 0, origins_last_hour := [],
             last_reset_timestamp := currentHourStart }
  else
    { r with requests_last_hour := 0, last_reset_timestamp := currentHourStart }

/-- `resetHourlyCounters()` at epoch time `now`: sync the cached reset if
unknown, and when the current hour start is past it, snapshot first, then
shift/zero, then run the daily cleanup. -/
def resetHourlyCounters (now : Nat) (hasSlidingWindow hasOriginsLastHour : Bool)
    (st : StoreState) : StoreState :=
  let currentHourStart := getStartOfCurrentHour now
  let lastReset :=
    match st.lastGlobalReset with
    | some t => t
    | none => (minLastReset st.ip_table).getD currentHourStart
  if currentHourStart > lastReset then
    let hist1 := captureHourlySnapshot lastReset hasOriginsLastHour st.ip_table st.ip_history_table
    let moreThanOneHour := decide (currentHourStart - lastReset > 3600)
    let table1 := st.ip_table.map
      (shiftRow hasSlidingWindow hasOriginsLastHour moreThanOneHour currentHourStart)
    let cleaned := cleanupOldHistory now st.lastCleanupTimestamp hist1
    { lastGlobalReset := some currentHourStart
      lastCleanupTimestamp := cleaned.fst
      ip_table := table1
      ip_history_table := cleaned.snd }
  else
    { st with lastGlobalReset := some lastReset }

/-! ### Origin validator (`utils/originValidator.js`) -/

/-- JavaScript `String.prototype.toLowerCase` over the ASCII range. -/
def toLowerStr (s : Str) : Str := s.map Char.toLower

def isDigitChar (c : Char) : Bool := decide ('0' ≤ c) && decide (c ≤ '9')

def isLowerAlphaChar (c : Char) : Bool := decide ('a' ≤ c) && decide (c ≤ 'z')

def isLowerAlnumChar (c : Char) : Bool := isLowerAlphaChar c || isDigitChar c

/-- A character allowed inside a DNS label: `[a-z0-9-]`. -/
def labelCharOk (c : Char) : Bool := isLowerAlnumChar c || c = '-'

/-- JavaScript `s.split('.')`. -/
def splitOnDot : Str → List Str
  | [] => [[]]
  | c :: cs =>
    match splitOnDot cs with
    | [] => [[c]]
    | h :: t => if c = '.' then [] :: h :: t else (c :: h) :: t

/-- `/^\d+$/`. -/
def allDigits (s : Str) : Bool := !s.isEmpty && s.all isDigitChar

/-- `/^172\.(1[6-9]|2\d|3[01])\./` (anchored prefix test). -/
def is172Private (n : Str) : Bool :=
  match n with
  | '1' :: '7' :: '2' :: '.' :: d1 :: d2 :: '.' :: _ =>
    (d1 = '1' && (decide ('6' ≤ d2) && decide (d2 ≤ '9')))
      || (d1 = '2' && isDigitChar d2)
      || (d1 = '3' && (d2 = '0' || d2 = '1'))
  | _ => false

/-- `/^\d{1,3}\.\d{1,3}\.\d{1,3}\.\d{1,3}$/`. -/
def isFullIpv4 (n : Str) : Bool :=
  match splitOnDot n with
  | [a, b, c, d] =>
    [a, b, c, d].all fun p => decide (1 ≤ p.length) && decide (p.length ≤ 3) && p.all isDigitChar
  | _ => false

/-- The `ipv4Patterns` loop of `isLocalOrigin`. -/
def ipv4PatternHit (n : Str) : Bool :=
  (("127.").data).isPrefixOf n || (("192.168.").data).isPrefixOf n
    || (("10.").data).isPrefixOf n || is172Private n || isFullIpv4 n

/-- The `localTLDs` loop (`endsWith` each reserved suffix). -/
def localTLDHit (n : Str) : Bool :=
  ((".local").data).isSuffixOf n || ((".internal").data).isSuffixOf n
    || ((".lan").data).isSuffixOf n || ((".home").data).isSuffixOf n
    || ((".localhost").data).isSuffixOf n

/-- `/^[a-z0-9]([a-z0-9-]*[a-z0-9])?$/`: nonempty, every character in
`[a-z0-9-]`, and the first and last characters in `[a-z0-9]`. -/
def segRegexOk (seg : Str) : Bool :=
  !seg.isEmpty && seg.all labelCharOk
    && (match seg.head? with
        | some c => isLowerAlnumChar c
        | none => false)
    && (match seg.getLast? with
        | some c => isLowerAlnumChar c
        | none => false)

/-- Step 6 of `isLocalOrigin`: a DNS segment failing the code's checks. -/
def segmentBad (seg : Str) : Bool :=
  seg.isEmpty || decide (seg.length > 63) || !segRegexOk seg

/-- Step 5 of `isLocalOrigin`: the TLD must be at least two letters. -/
def tldBad (tld : Str) : Bool :=
  decide (tld.length < 2) || !tld.all isLowerAlphaChar

/-- Steps 4-6 of `isLocalOrigin` (structural DNS validation), written as
the disjunction of the early-return conditions. -/
def dnsStructureBad (n : Str) : Bool :=
  !n.contains '.'
    || (let parts := splitOnDot n
        decide (parts.length < 2) || parts.all allDigits
          || tldBad (parts.getLast?.getD []) || parts.any segmentBad)

/-- `isLocalOrigin(origin)` (the `originValidator.js` classifier): the
early-return cascade of the source, written as the disjunction of its
conditions in source order, over `origin.toLowerCase().trim()`. -/
def isLocalOrigin (origin : Str) : Bool :=
  let normalized := trimStr (toLowerStr origin)
  decide (normalized.length = 0) || decide (normalized.length > 253)
    || containsStr normalized (("extension://").data)
    || (("file://").data).isPrefixOf normalized
    || normalized.contains ':'
    || decide (normalized = ("localhost").data) || (("localhost.").data).isPrefixOf normalized
    || ipv4PatternHit normalized
    || containsStr normalized (("[::").data) || decide (normalized = ("::1").data)
    || (("::1").data).isPrefixOf normalized
    || localTLDHit normalized
    || dnsStructureBad normalized

/-- `filterOrigins(origins)`: keep exactly the entries whose key is not a
local origin. -/
def filterOrigins (origins : List (Str × Nat)) : List (Str × Nat) :=
  origins.filter fun p => !isLocalOrigin p.fst

/-- A DNS label violating the spec's structural rules (each label at most
63 characters, letters/digits/hyphens only, not hyphen-bounded). -/
def specLabelBad (seg : Str) : Bool :=
  seg.isEmpty || decide (seg.length > 63) || !seg.all labelCharOk
    || decide (seg.head? = some '-') || decide (seg.getLast? = some '-')

/-- Failure of the spec's DNS-label structural validation: some label is
bad, or the TLD is not purely alphabetic of length at least 2. -/
def specStructureBad (n : Str) : Bool :=
  (splitOnDot n).any specLabelBad || tldBad ((splitOnDot n).getLast?.getD [])

/-- The LocalLike classification enumerated by spec section 3, applied to
the canonicalized (lowercased, trimmed) origin per the glossary: empty,
localhost variants, private (RFC1918) or loopback IPs, contains a port
separator, local TLDs, extension or file schemes, or failing DNS-label
structural validation. -/
def specLocalLike (origin : Str) : Bool :=
  let n := trimStr (toLowerStr origin)
  n.isEmpty
    || decide (n = ("localhost").data) || (("localhost.").data).isPrefixOf n
    || (isFullIpv4 n
        && ((("10.").data).isPrefixOf n || (("192.168.").data).isPrefixOf n
            || is172Private n || (("127.").data).isPrefixOf n))
    || decide (n = ("::1").data)
    || n.contains ':'
    || localTLDHit n
    || containsStr n (("extension://").data) || (("file://").data).isPrefixOf n
    || specStructureBad n

/-! ### Concrete instances used by counterexamples and witnesses -/

/-- The empty aggregator. -/
def aggEmpty : AggState := { urlCountMap := [], ipCountMap := [] }

/-- A sample valid POST request. -/
def reqEx : PostRequest :=
  { body := JSValue.jobj
      [(keyJsonrpc, JSValue.jstr str20),
       (keyMethod, JSValue.jstr (("eth_blockNumber").data)),
       (keyId, JSValue.jnum 1)]
    ip := ("203.0.113.7").data
    origin := some (("https://dapp.example").data) }

/-- A truthy upstream response body. -/
def respEx : JSValue :=
  JSValue.jobj [(keyJsonrpc, JSValue.jstr str20), (keyId, JSValue.jnum 1)]

/-- The breaker after two primary POST failures with a configured
fallback: state `OPEN`, `isUsingFallback` true, `lastFailureTime` 2000. -/
def cbOpenEx : CircuitBreaker :=
  applyCBEvent
    (applyCBEvent (mkCircuitBreaker (some (("https://fallback.example").data)) 2 60000)
      (CBEvent.failure 1000))
    (CBEvent.failure 2000)

/-- A row whose hourly requests are entirely attributed to a public
origin: raw effective count 11, no-origin effective count 0. -/
def rowC3Ex : IpRow :=
  { ip := ("198.51.100.4").data
    requests_last_hour := 11
    requests_previous_hour := 0
    origins_last_hour := [(("example.com").data, 11)]
    origins_previous_hour := []
    requests_today := 0
    origins_today := [] }

/-- A blocked batch item in first position. -/
def adminItemEx : JSValue :=
  JSValue.jobj
    [(keyJsonrpc, JSValue.jstr str20),
     (keyMethod, JSValue.jstr (("admin_peers").data)),
     (keyId, JSValue.jnum 1)]

/-- A blocked batch item in second position. -/
def debugItemEx : JSValue :=
  JSValue.jobj
    [(keyJsonrpc, JSValue.jstr str20),
     (keyMethod, JSValue.jstr (("debug_traceTransaction").data)),
     (keyId, JSValue.jnum 2)]

/-- A batch with two blocked members. -/
def batchC7Ex : JSValue := JSValue.jarr [adminItemEx, debugItemEx]

/-- A breaker in normal (closed) mode. -/
def cbClosedEx : CircuitBreaker :=
  mkCircuitBreaker (some (("https://fallback.example").data)) 2 60000

/-- A two-element batch POST. -/
def reqBatchEx : PostRequest :=
  { body := JSValue.jarr [reqEx.body, reqEx.body]
    ip := ("203.0.113.7").data
    origin := some (("https://dapp.example").data) }

/-- A small live aggregator for the claim C2 witness. -/
def liveSwapEx : AggState :=
  { urlCountMap := [(("dapp.example").data, 2)]
    ipCountMap := [(("203.0.113.7").data, { count := 3, origins := [(("dapp.example").data, 2)] })] }

/-- What accrued during the failing cycle, for the claim C2 witness. -/
def accruedEx : AggState :=
  { urlCountMap := [(("dapp.example").data, 1), (("other.example").data, 5)]
    ipCountMap := [(("203.0.113.7").data, { count := 4, origins := [(("dapp.example").data, 4)] })] }

/-- A row whose 12 hourly requests carry no origin. -/
def rowNoOriginEx : IpRow :=
  { ip := ("198.51.100.9").data, requests_last_hour := 12, requests_previous_hour := 0,
    origins_last_hour := [], origins_previous_hour := [],
    requests_today := 0, origins_today := [] }

/-- A counter row for the claim C4 witness. -/
def rowStoreEx : TableRow :=
  { ip := ("203.0.113.7").data, requests_last_hour := 120,
    requests_previous_hour := 0,
    origins_last_hour := [(("dapp.example").data, 120)],
    origins_previous_hour := [], origins := [(("dapp.example").data, 500)],
    last_reset_timestamp := 36000 }

/-- A store state for the claim C4 witness: one active row, cached reset
at 36000, cleanup recently run. -/
def storeEx : StoreState :=
  { lastGlobalReset := some 36000
    lastCleanupTimestamp := some 39000
    ip_table := [rowStoreEx]
    ip_history_table := [] }

/-- An origins map mixing a public domain with local origins. -/
def originsC9Ex : List (Str × Nat) :=
  [(("localhost").data, 3), (("example.com").data, 2), (("192.168.1.5").data, 7)]

/-! ### Theorems -/

theorem applyCBEvent_hasFallback (cb : CircuitBreaker) (e : CBEvent) :
    (applyCBEvent cb e).hasFallback = cb.hasFallback := by
  cases e with
  | success =>
    simp [applyCBEvent, CircuitBreaker.onSuccess]
  | failure now =>
    simp only [applyCBEvent, CircuitBreaker.onFailure]
    split
    · rfl
    · split
      · split <;> rfl
      · rfl

theorem applyCBEvent_closed (cb : CircuitBreaker) (e : CBEvent)
    (hf : cb.hasFallback = false) (hs : cb.state = CBState.CLOSED) :
    (applyCBEvent cb e).state = CBState.CLOSED := by
  cases e with
  | success =>
    simp [applyCBEvent, CircuitBreaker.onSuccess, hs]
  | failure now =>
    simp only [applyCBEvent, CircuitBreaker.onFailure, hs, hf]
    split
    · simp_all
    · split
      · simp [hf]
      · simp [hs]

theorem foldl_applyCBEvent_closed (evs : List CBEvent) (cb : CircuitBreaker)
    (hf : cb.hasFallback = false) (hs : cb.state = CBState.CLOSED) :
    (evs.foldl applyCBEvent cb).state = CBState.CLOSED := by
  induction evs generalizing cb with
  | nil => exact hs
  | cons e rest ih =>
    exact ih (applyCBEvent cb e) (by rw [applyCBEvent_hasFallback, hf])
      (applyCBEvent_closed cb e hf hs)

/-- Claim C5: without a configured fallback the breaker's state stays
`CLOSED` under every sequence of `onSuccess`/`onFailure` events from the
initial state, and `CLOSED → OPEN` happens only when the incremented
consecutive-failure count reaches the threshold with a fallback
configured. -/
theorem claim_C5 (fallbackUrl : Option Str) (ft rt : Nat)
    (hnf : (mkCircuitBreaker fallbackUrl ft rt).hasFallback = false) :
    (∀ evs : List CBEvent,
        (evs.foldl applyCBEvent (mkCircuitBreaker fallbackUrl ft rt)).state = CBState.CLOSED)
    ∧ ∀ (cb : CircuitBreaker) (e : CBEvent), cb.state = CBState.CLOSED →
        (applyCBEvent cb e).state = CBState.OPEN →
        cb.hasFallback = true ∧ cb.consecutiveFailures + 1 ≥ cb.failureThreshold := by
  constructor
  · intro evs
    exact foldl_applyCBEvent_closed evs _ hnf rfl
  · intro cb e hs hopen
    cases e with
    | success =>
      simp [applyCBEvent, CircuitBreaker.onSuccess, hs] at hopen
    | failure now =>
      simp only [applyCBEvent, CircuitBreaker.onFailure] at hopen
      split_ifs at hopen with h1 h2 h3
      · exact absurd h1 (by simp [hs])
      · exact ⟨h3, h2.1⟩
      · simp [hs] at hopen
      · simp [hs] at hopen

/-- Witness for claim C5 at a concrete breaker with no fallback URL and
three failures. -/
theorem claim_C5_witness :
    (mkCircuitBreaker none 2 60000).hasFallback = false ∧
      (([CBEvent.failure 5, CBEvent.failure 6, CBEvent.failure 7].foldl applyCBEvent
          (mkCircuitBreaker none 2 60000)).state = CBState.CLOSED) :=
  ⟨rfl, (claim_C5 none 2 60000 rfl).1 [CBEvent.failure 5, CBEvent.failure 6, CBEvent.failure 7]⟩

/-- Claim C6 (code bug): with the breaker `OPEN` and the reset timeout
expired, the first routing call does move the breaker to `HALF_OPEN` and
`getCurrentUrl` does return the primary URL — but `app.post("/")` reads
`isCurrentlyUsingFallback()` before calling `getCurrentUrl()`, so the
probe request itself is dispatched to the fallback upstream, not the
primary. -/
theorem claim_C6_probe_routed_to_fallback :
    cbOpenEx.state = CBState.OPEN ∧
    cbOpenEx.isUsingFallback = true ∧
    62000 - cbOpenEx.lastFailureTime ≥ cbOpenEx.resetTimeout ∧
    (cbOpenEx.getCurrentUrl 62000).snd = CircuitBreaker.UrlChoice.primary ∧
    (handlePost cbOpenEx 62000 reqEx (UpstreamOutcome.ok respEx 200)
        (UpstreamOutcome.ok respEx 200) aggEmpty).breaker.state = CBState.HALF_OPEN ∧
    (handlePost cbOpenEx 62000 reqEx (UpstreamOutcome.ok respEx 200)
        (UpstreamOutcome.ok respEx 200) aggEmpty).served = PostServed.fallbackBreaker := by
  refine ⟨rfl, rfl, by decide, rfl, rfl, rfl⟩

/-- Claim C10: a single request whose `jsonrpc` is `"2.0"`, whose `id`
is explicitly present, and whose `method` is truthy but not a string
passes validation and reaches the dispatcher: the structural check only
requires truthiness and the namespace check returns `null` for every
non-string method. -/
theorem claim_C10 (fields : List (Str × JSValue)) (v : JSValue)
    (hj : (JSValue.jobj fields).getField keyJsonrpc = some (JSValue.jstr str20))
    (hm : (JSValue.jobj fields).getField keyMethod = some v)
    (hvt : v.truthy = true)
    (hvs : ∀ s, v ≠ JSValue.jstr s)
    (hid : ((JSValue.jobj fields).getField keyId).isSome = true) :
    validateRpcRequest (JSValue.jobj fields) = VResult.pass := by
  have hsi : structurallyInvalid (JSValue.jobj fields) = false := by
    simp [structurallyInvalid, jsonrpcBad, hj, methodBad, hm, hvt, idBad,
      Option.isNone_iff_eq_none]
    exact hid
  have hns : getBlockedNamespace ((JSValue.jobj fields).getField keyMethod) = none := by
    rw [hm]
    cases v with
    | jstr s => exact absurd rfl (hvs s)
    | jnull => rfl
    | jbool b => rfl
    | jnum n => rfl
    | jarr xs => rfl
    | jobj fs => rfl
  simp [validateRpcRequest, JSValue.truthy, JSValue.typeofObject, hsi, hns]

/-- Witness for claim C10: `method` is the number 5. -/
theorem claim_C10_witness :
    validateRpcRequest (JSValue.jobj
      [(keyJsonrpc, JSValue.jstr str20), (keyMethod, JSValue.jnum 5),
       (keyId, JSValue.jnum 1)]) = VResult.pass :=
  claim_C10 _ (JSValue.jnum 5) rfl rfl rfl (fun _ h => JSValue.noConfusion h) rfl

theorem validateBatchItems_skip_clean (i : Nat) (pre rest : List JSValue)
    (hpre : ∀ x ∈ pre, structurallyInvalid x = false ∧
      getBlockedNamespace (x.getField keyMethod) = none) :
    validateBatchItems i (pre ++ rest) = validateBatchItems (i + pre.length) rest := by
  induction pre generalizing i with
  | nil => simp
  | cons x xs ih =>
    have hx := hpre x (by simp)
    have hxs : ∀ y ∈ xs, structurallyInvalid y = false ∧
        getBlockedNamespace (y.getField keyMethod) = none :=
      fun y hy => hpre y (by simp [hy])
    calc validateBatchItems i ((x :: xs) ++ rest)
        = validateBatchItems (i + 1) (xs ++ rest) := by
          simp [validateBatchItems, hx.1, hx.2]
      _ = validateBatchItems (i + 1 + xs.length) rest := ih (i + 1) hxs
      _ = validateBatchItems (i + (x :: xs).length) rest := by
          have he : i + 1 + xs.length = i + (x :: xs).length := by
            simp [List.length_cons]
            omega
          rw [he]

/-- Claim C8: a falsy or non-object POST body is rejected with `-32700`
and id `null`; an empty batch array with `-32600` and id `null`; a single
request object failing the structural test (no `jsonrpc == "2.0"`, falsy
`method`, or absent `id`) with `-32600` echoing its id when available; a
batch whose first offending member fails the structural test with
`-32600` echoing that member's id; all with HTTP status 200. -/
theorem claim_C8 :
    (∀ body : JSValue, body.truthy = false ∨ body.typeofObject = false →
        validateRpcRequest body = VResult.reject 200 (-32700) JSValue.jnull
          (("Parse error: Invalid JSON or empty request body").data))
    ∧ (validateRpcRequest (JSValue.jarr []) = VResult.reject 200 (-32600) JSValue.jnull
        (("Invalid Request: Batch request cannot be empty").data))
    ∧ (∀ fields : List (Str × JSValue), structurallyInvalid (JSValue.jobj fields) = true →
        validateRpcRequest (JSValue.jobj fields) =
          VResult.reject 200 (-32600) (jsValOrNull ((JSValue.jobj fields).getField keyId))
            (invalidSingleMsg (JSValue.jobj fields)))
    ∧ (∀ (pre : List JSValue) (r : JSValue) (post : List JSValue),
        (∀ x ∈ pre, structurallyInvalid x = false ∧
          getBlockedNamespace (x.getField keyMethod) = none) →
        structurallyInvalid r = true →
        validateRpcRequest (JSValue.jarr (pre ++ r :: post)) =
          VResult.reject 200 (-32600) (jsValOrNull (r.getField keyId))
            (invalidBatchMsg pre.length r)) := by
  refine ⟨?_, by rfl, ?_, ?_⟩
  · intro body h
    rcases h with h | h <;>
      · cases body <;> simp_all [validateRpcRequest, JSValue.truthy, JSValue.typeofObject]
  · intro fields hsi
    simp [validateRpcRequest, JSValue.truthy, JSValue.typeofObject, hsi]
  · intro pre r post hpre hr
    have hne : ((pre ++ r :: post : List JSValue)).isEmpty = false := by
      cases pre <;> simp
    simp only [validateRpcRequest, JSValue.truthy, JSValue.typeofObject, hne,
      Bool.not_true, Bool.or_self, Bool.false_eq_true, if_false]
    rw [validateBatchItems_skip_clean 0 pre (r :: post) hpre]
    simp [validateBatchItems, hr]

/-- Witness for claim C8: a null body, and a batch whose second member
lacks an `id`. -/
theorem claim_C8_witness :
    validateRpcRequest JSValue.jnull = VResult.reject 200 (-32700) JSValue.jnull
      (("Parse error: Invalid JSON or empty request body").data) ∧
    validateRpcRequest (JSValue.jarr [adminItemEx]) =
      VResult.reject 200 (-32601) (JSValue.jnum 1) (blockedMsg (("admin").data)) ∧
    validateRpcRequest (JSValue.jarr
        [JSValue.jobj [(keyJsonrpc, JSValue.jstr str20), (keyMethod, JSValue.jnum 5), (keyId, JSValue.jnum 7)],
         JSValue.jobj [(keyJsonrpc, JSValue.jstr str20), (keyMethod, JSValue.jstr (("eth_call").data))]]) =
      VResult.reject 200 (-32600) JSValue.jnull
        (invalidBatchMsg 1 (JSValue.jobj [(keyJsonrpc, JSValue.jstr str20),
          (keyMethod, JSValue.jstr (("eth_call").data))])) :=
  ⟨claim_C8.1 JSValue.jnull (Or.inl rfl), rfl,
    claim_C8.2.2.2
      [JSValue.jobj [(keyJsonrpc, JSValue.jstr str20), (keyMethod, JSValue.jnum 5), (keyId, JSValue.jnum 7)]]
      (JSValue.jobj [(keyJsonrpc, JSValue.jstr str20), (keyMethod, JSValue.jstr (("eth_call").data))])
      []
      (by intro x hx
          simp at hx
          subst hx
          exact ⟨rfl, rfl⟩)
      rfl⟩

/-- Claim C7 counterexample: in a batch whose first and second members
both carry blocked methods, the response names the first member (`admin`,
id 1); the second member's method begins with `debug_` yet no `-32601`
response echoing its id and naming `debug` is produced, so the claim's
universal statement over every batch member fails. -/
theorem claim_C7_counterexample :
    (("debug_").data).isPrefixOf (("debug_traceTransaction").data) = true ∧
    jsValOrNull (debugItemEx.getField keyId) = JSValue.jnum 2 ∧
    validateRpcRequest batchC7Ex =
      VResult.reject 200 (-32601) (JSValue.jnum 1) (blockedMsg (("admin").data)) ∧
    VResult.reject 200 (-32601) (JSValue.jnum 1) (blockedMsg (("admin").data)) ≠
      VResult.reject 200 (-32601) (JSValue.jnum 2) (blockedMsg (("debug").data)) := by
  refine ⟨rfl, rfl, rfl, ?_⟩
  intro h
  injection h with h1 h2 h3 h4
  injection h3 with h5
  exact absurd h5 (by decide)

theorem getBlockedNamespace_firstBlocked (l : List Str) (s ns : Str)
    (h : getBlockedNamespace.firstBlocked l s = some ns) :
    ∃ nsu ∈ l, nsu.isPrefixOf s = true ∧ ns = nsu.dropLast := by
  induction l with
  | nil => simp [getBlockedNamespace.firstBlocked] at h
  | cons x xs ih =>
    by_cases hx : x.isPrefixOf s = true
    · refine ⟨x, by simp, hx, ?_⟩
      simp [getBlockedNamespace.firstBlocked, hx] at h
      exact h.symm
    · simp only [getBlockedNamespace.firstBlocked, hx, Bool.false_eq_true, if_false] at h
      obtain ⟨nsu, hmem, hp, he⟩ := ih h
      exact ⟨nsu, by simp [hmem], hp, he⟩

/-- Claim C7 (amended): when the first request object that fails
validation is a structurally valid object whose method begins with a
blocked prefix, the validator responds with HTTP 200 and a `-32601`
error echoing that object's id, whose message embeds the blocked
namespace with the trailing underscore removed; the request is not
forwarded (the response is a rejection, not `next()`). -/
theorem claim_C7_amended :
    (∀ (fields : List (Str × JSValue)) (ns : Str),
        structurallyInvalid (JSValue.jobj fields) = false →
        getBlockedNamespace ((JSValue.jobj fields).getField keyMethod) = some ns →
        validateRpcRequest (JSValue.jobj fields) =
          VResult.reject 200 (-32601) (jsValOrNull ((JSValue.jobj fields).getField keyId))
            (blockedMsg ns))
    ∧ (∀ (pre : List JSValue) (r : JSValue) (post : List JSValue) (ns : Str),
        (∀ x ∈ pre, structurallyInvalid x = false ∧
          getBlockedNamespace (x.getField keyMethod) = none) →
        structurallyInvalid r = false →
        getBlockedNamespace (r.getField keyMethod) = some ns →
        validateRpcRequest (JSValue.jarr (pre ++ r :: post)) =
          VResult.reject 200 (-32601) (jsValOrNull (r.getField keyId)) (blockedMsg ns))
    ∧ (∀ m ns : Str, getBlockedNamespace (some (JSValue.jstr m)) = some ns →
        ∃ nsu ∈ BLOCKED_NAMESPACES, nsu.isPrefixOf m = true ∧ ns = nsu.dropLast) := by
  refine ⟨?_, ?_, ?_⟩
  · intro fields ns hsi hns
    simp [validateRpcRequest, JSValue.truthy, JSValue.typeofObject, hsi, hns]
  · intro pre r post ns hpre hr hns
    have hne : ((pre ++ r :: post : List JSValue)).isEmpty = false := by
      cases pre <;> simp
    simp only [validateRpcRequest, JSValue.truthy, JSValue.typeofObject, hne,
      Bool.not_true, Bool.or_self, Bool.false_eq_true, if_false]
    rw [validateBatchItems_skip_clean 0 pre (r :: post) hpre]
    simp [validateBatchItems, hr, hns]
  · intro m ns h
    exact getBlockedNamespace_firstBlocked _ _ _ h

/-- Witness for claim C7 (amended): a singleton `debug_` request. -/
theorem claim_C7_witness :
    validateRpcRequest debugItemEx =
      VResult.reject 200 (-32601) (JSValue.jnum 2) (blockedMsg (("debug").data)) :=
  claim_C7_amended.1
    [(keyJsonrpc, JSValue.jstr str20),
     (keyMethod, JSValue.jstr (("debug_traceTransaction").data)),
     (keyId, JSValue.jnum 2)]
    (("debug").data) rfl rfl

/-- Claim C1: a POST served while the breaker reports fallback mode, or
served by the immediate fallback retry after a primary failure, leaves
`urlCountMap` and `ipCountMap` untouched; a POST answered successfully by
the primary credits the aggregator exactly once, with the batch length
for a batch body and 1 for a singleton. -/
theorem claim_C1 (cb : CircuitBreaker) (now : Nat) (req : PostRequest)
    (primaryResult fallbackResult : UpstreamOutcome) (agg : AggState) :
    (cb.isUsingFallback = true →
      (handlePost cb now req primaryResult fallbackResult agg).agg = agg)
    ∧ (cb.isUsingFallback = false → ∀ st, primaryResult = UpstreamOutcome.fail st →
      (handlePost cb now req primaryResult fallbackResult agg).agg = agg)
    ∧ (cb.isUsingFallback = false → ∀ d s, primaryResult = UpstreamOutcome.ok d s →
      d.truthy = true →
      ((handlePost cb now req primaryResult fallbackResult agg).agg.ipCountMap
          = updateIpCountMap agg.ipCountMap req.ip req.origin (requestCount req.body))
      ∧ (∀ o, req.origin = some o → o ≠ [] →
          (handlePost cb now req primaryResult fallbackResult agg).agg.urlCountMap
            = updateUrlCountMap agg.urlCountMap o (requestCount req.body))
      ∧ (req.origin = none →
          (handlePost cb now req primaryResult fallbackResult agg).agg.urlCountMap
            = agg.urlCountMap))
    ∧ (∀ xs : List JSValue, requestCount (JSValue.jarr xs) = xs.length) := by
  refine ⟨?_, ?_, ?_, fun xs => rfl⟩
  · intro h
    cases fallbackResult <;> simp [handlePost, h]
  · intro h st hp
    subst hp
    cases fallbackResult <;> simp [handlePost, h]
  · intro h d s hp hd
    subst hp
    refine ⟨?_, ?_, ?_⟩
    · cases hor : req.origin with
      | none => simp [handlePost, h, hd, creditAggregator, hor]
      | some o =>
        by_cases ho : o = [] <;>
          simp [handlePost, h, hd, creditAggregator, hor, ho]
    · intro o hor hne
      simp [handlePost, h, hd, creditAggregator, hor, hne]
    · intro hor
      simp [handlePost, h, hd, creditAggregator, hor]

/-- Witness for claim C1: a primary success on a two-element batch
credits the IP map once with count 2, and a breaker-fallback POST leaves
the aggregator unchanged. -/
theorem claim_C1_witness :
    cbClosedEx.isUsingFallback = false ∧
    cbOpenEx.isUsingFallback = true ∧
    ((handlePost cbClosedEx 0 reqBatchEx (UpstreamOutcome.ok respEx 200)
        (UpstreamOutcome.fail none) aggEmpty).agg.ipCountMap
      = updateIpCountMap [] (("203.0.113.7").data) (some (("https://dapp.example").data)) 2) ∧
    (handlePost cbOpenEx 5000 reqBatchEx (UpstreamOutcome.ok respEx 200)
        (UpstreamOutcome.ok respEx 200) aggEmpty).agg = aggEmpty :=
  ⟨rfl, rfl,
    ((claim_C1 cbClosedEx 0 reqBatchEx (UpstreamOutcome.ok respEx 200)
        (UpstreamOutcome.fail none) aggEmpty).2.2.1 rfl respEx 200 rfl rfl).1,
    (claim_C1 cbOpenEx 5000 reqBatchEx (UpstreamOutcome.ok respEx 200)
        (UpstreamOutcome.ok respEx 200) aggEmpty).1 rfl⟩

theorem totalCountOf_addToCountMap (m : List (Str × Nat)) (k : Str) (n : Nat) (k' : Str) :
    totalCountOf (addToCountMap m k n) k' = totalCountOf m k' + (if k = k' then n else 0) := by
  induction m with
  | nil => simp [addToCountMap, totalCountOf]
  | cons p rest ih =>
    obtain ⟨ak, av⟩ := p
    by_cases hak : ak = k
    · subst hak
      simp only [addToCountMap, if_pos rfl, totalCountOf]
      split_ifs <;> omega
    · simp only [addToCountMap, if_neg hak, totalCountOf, ih]
      split_ifs <;> omega

theorem totalCountOf_mergeCountMaps (live sw : List (Str × Nat)) (k : Str) :
    totalCountOf (mergeCountMaps live sw) k = totalCountOf live k + totalCountOf sw k := by
  induction sw generalizing live with
  | nil => simp [mergeCountMaps, totalCountOf]
  | cons p rest ih =>
    obtain ⟨pk, pv⟩ := p
    have hstep : mergeCountMaps live ((pk, pv) :: rest)
        = mergeCountMaps (addToCountMap live pk pv) rest := rfl
    rw [hstep, ih, totalCountOf_addToCountMap]
    simp only [totalCountOf]
    split_ifs <;> omega

theorem ipTotalOf_addIpToMap (m : List (Str × IpEntry)) (ip : Str) (e : IpEntry) (ip' : Str) :
    ipTotalOf (addIpToMap m ip e) ip' = ipTotalOf m ip' + (if ip = ip' then e.count else 0) := by
  induction m with
  | nil => simp [addIpToMap, ipTotalOf]
  | cons p rest ih =>
    obtain ⟨ak, ae⟩ := p
    by_cases hak : ak = ip
    · subst hak
      simp only [addIpToMap, if_pos rfl, ipTotalOf]
      split_ifs <;> omega
    · simp only [addIpToMap, if_neg hak, ipTotalOf, ih]
      split_ifs <;> omega

theorem ipOriginTotalOf_addIpToMap (m : List (Str × IpEntry)) (ip : Str) (e : IpEntry)
    (ip' o : Str) :
    ipOriginTotalOf (addIpToMap m ip e) ip' o
      = ipOriginTotalOf m ip' o + (if ip = ip' then totalCountOf e.origins o else 0) := by
  induction m with
  | nil => simp [addIpToMap, ipOriginTotalOf]
  | cons p rest ih =>
    obtain ⟨ak, ae⟩ := p
    by_cases hak : ak = ip
    · subst hak
      simp only [addIpToMap, if_pos rfl, ipOriginTotalOf, totalCountOf_mergeCountMaps]
      split_ifs <;> omega
    · simp only [addIpToMap, if_neg hak, ipOriginTotalOf, ih]
      split_ifs <;> omega

theorem ipTotalOf_mergeIpCountMaps (live sw : List (Str × IpEntry)) (ip : Str) :
    ipTotalOf (mergeIpCountMaps live sw) ip = ipTotalOf live ip + ipTotalOf sw ip := by
  induction sw generalizing live with
  | nil => simp [mergeIpCountMaps, ipTotalOf]
  | cons p rest ih =>
    obtain ⟨pk, pe⟩ := p
    have hstep : mergeIpCountMaps live ((pk, pe) :: rest)
        = mergeIpCountMaps (addIpToMap live pk pe) rest := rfl
    rw [hstep, ih, ipTotalOf_addIpToMap]
    simp only [ipTotalOf]
    split_ifs <;> omega

theorem ipOriginTotalOf_mergeIpCountMaps (live sw : List (Str × IpEntry)) (ip o : Str) :
    ipOriginTotalOf (mergeIpCountMaps live sw) ip o
      = ipOriginTotalOf live ip o + ipOriginTotalOf sw ip o := by
  induction sw generalizing live with
  | nil => simp [mergeIpCountMaps, ipOriginTotalOf]
  | cons p rest ih =>
    obtain ⟨pk, pe⟩ := p
    have hstep : mergeIpCountMaps live ((pk, pe) :: rest)
        = mergeIpCountMaps (addIpToMap live pk pe) rest := rfl
    rw [hstep, ih, ipOriginTotalOf_addIpToMap]
    simp only [ipOriginTotalOf]
    split_ifs <;> omega

/-- Claim C2: if either update of a flush cycle fails, the swapped-out
sub-maps are ADD-merged back into the live aggregator maps, so for every
origin key, every IP, and every (IP, origin) pair the resulting live
count is the sum of what accrued during the cycle and what was swapped
out — no counted request is lost by a single failed cycle. -/
theorem claim_C2 (liveAtSwap accrued : AggState) (originUpdateFailed ipUpdateFailed : Bool)
    (hfail : originUpdateFailed = true ∨ ipUpdateFailed = true) :
    (∀ k, totalCountOf
        (processBackgroundTasks liveAtSwap accrued originUpdateFailed ipUpdateFailed).urlCountMap k
      = totalCountOf accrued.urlCountMap k + totalCountOf liveAtSwap.urlCountMap k)
    ∧ (∀ ip, ipTotalOf
        (processBackgroundTasks liveAtSwap accrued originUpdateFailed ipUpdateFailed).ipCountMap ip
      = ipTotalOf accrued.ipCountMap ip + ipTotalOf liveAtSwap.ipCountMap ip)
    ∧ (∀ ip o, ipOriginTotalOf
        (processBackgroundTasks liveAtSwap accrued originUpdateFailed ipUpdateFailed).ipCountMap ip o
      = ipOriginTotalOf accrued.ipCountMap ip o + ipOriginTotalOf liveAtSwap.ipCountMap ip o) := by
  have hc : (originUpdateFailed || ipUpdateFailed) = true := by
    rcases hfail with h | h <;> simp [h]
  refine ⟨fun k => ?_, fun ip => ?_, fun ip o => ?_⟩ <;>
    simp [processBackgroundTasks, hc, totalCountOf_mergeCountMaps,
      ipTotalOf_mergeIpCountMaps, ipOriginTotalOf_mergeIpCountMaps]

/-- Witness for claim C2 at a concrete failing cycle. -/
theorem claim_C2_witness :
    totalCountOf (processBackgroundTasks liveSwapEx accruedEx true false).urlCountMap
        (("dapp.example").data)
      = totalCountOf accruedEx.urlCountMap (("dapp.example").data)
        + totalCountOf liveSwapEx.urlCountMap (("dapp.example").data) ∧
    ipOriginTotalOf (processBackgroundTasks liveSwapEx accruedEx true false).ipCountMap
        (("203.0.113.7").data) (("dapp.example").data)
      = ipOriginTotalOf accruedEx.ipCountMap (("203.0.113.7").data) (("dapp.example").data)
        + ipOriginTotalOf liveSwapEx.ipCountMap (("203.0.113.7").data) (("dapp.example").data) :=
  ⟨(claim_C2 liveSwapEx accruedEx true false (Or.inl rfl)).1 (("dapp.example").data),
   (claim_C2 liveSwapEx accruedEx true false (Or.inl rfl)).2.2
     (("203.0.113.7").data) (("dapp.example").data)⟩

/-- Claim C3 counterexample: a row with `requests_last_hour = 11`,
`requests_previous_hour = 0` and weight 1 has claimed effective count
11 > 10 (the configured IP hourly limit), yet the poll does not place the
IP on the hourly blocklist, because the code blocks on the no-origin
effective count and all 11 requests are attributed to an origin. -/
theorem claim_C3_counterexample :
    ((rowC3Ex.requests_last_hour : ℚ) + (rowC3Ex.requests_previous_hour : ℚ) * 1 > 10) ∧
    (pollRateLimitDataIp [rowC3Ex] 1 true 10 1000).blockedIPs = [] := by
  constructor
  · norm_num [rowC3Ex]
  · simp only [pollRateLimitDataIp]
    norm_num [rowC3Ex, effectiveNoOrigin, sumVals, List.filter, List.filterMap]

/-- Claim C3 (amended): for every limiter poll, an IP is on the hourly
blocklist iff some returned row (`requests_last_hour > 0` or
`requests_previous_hour > 0`) for that IP has no-origin effective count
`(requestsLastHour + requestsPreviousHour·w) − (Σ originsLastHour +
Σ originsPreviousHour·w)` strictly above the IP hourly limit; it is on
the daily blocklist iff `requestsToday − Σ originsToday` strictly
exceeds the daily limit; the stored per-IP current count is the
no-origin portion `requestsLastHour − Σ originsLastHour`; and the weight
is `1 − minutesIntoCurrentHour/60`.  The 10000-row query cap is assumed
inactive. -/
theorem claim_C3_amended (rows : List IpRow) (w : ℚ) (hasDailyLimit : Bool)
    (limH limD : ℚ) (ip : Str) (_hcap : rows.length ≤ 10000) :
    (ip ∈ (pollRateLimitDataIp rows w hasDailyLimit limH limD).blockedIPs ↔
      ∃ r ∈ rows, r.ip = ip ∧ (0 < r.requests_last_hour ∨ 0 < r.requests_previous_hour)
        ∧ effectiveNoOrigin r w > limH)
    ∧ (hasDailyLimit = true →
      (ip ∈ (pollRateLimitDataIp rows w hasDailyLimit limH limD).dailyBlockedIPs ↔
        ∃ r ∈ rows, r.ip = ip ∧ 0 < r.requests_today
          ∧ (((r.requests_today : Int) - (sumVals r.origins_today : Int) : Int) : ℚ) > limD))
    ∧ (∀ c : Int,
        (ip, c) ∈ (pollRateLimitDataIp rows w hasDailyLimit limH limD).ipCurrentHour →
        ∃ r ∈ rows, r.ip = ip
          ∧ c = (r.requests_last_hour : Int) - (sumVals r.origins_last_hour : Int))
    ∧ (∀ m s : ℚ, getPreviousHourWeight m s = 1 - (m + s / 60) / 60) := by
  refine ⟨?_, ?_, ?_, fun m s => rfl⟩
  · simp only [pollRateLimitDataIp, List.mem_filterMap, List.mem_filter]
    constructor
    · rintro ⟨r, ⟨hrmem, hrq⟩, hf⟩
      by_cases hb : effectiveNoOrigin r w > limH
      · rw [if_pos hb] at hf
        injection hf with hf
        refine ⟨r, hrmem, hf, ?_, hb⟩
        simpa using hrq
      · rw [if_neg hb] at hf
        cases hf
    · rintro ⟨r, hrmem, hip, hq, hb⟩
      refine ⟨r, ⟨hrmem, by simpa using hq⟩, ?_⟩
      rw [if_pos hb, hip]
  · intro hdl
    subst hdl
    simp only [pollRateLimitDataIp, if_pos, List.mem_filterMap, List.mem_filter]
    constructor
    · rintro ⟨r, ⟨hrmem, hrq⟩, hf⟩
      by_cases hb : (((r.requests_today : Int) - (sumVals r.origins_today : Int) : Int) : ℚ) > limD
      · rw [if_pos hb] at hf
        injection hf with hf
        exact ⟨r, hrmem, hf, by simpa using hrq, hb⟩
      · rw [if_neg hb] at hf
        cases hf
    · rintro ⟨r, hrmem, hip, hq, hb⟩
      refine ⟨r, ⟨hrmem, by simpa using hq⟩, ?_⟩
      rw [if_pos hb, hip]
  · intro c hc
    simp only [pollRateLimitDataIp, List.mem_filterMap, List.mem_filter] at hc
    obtain ⟨r, ⟨hrmem, hrq⟩, hf⟩ := hc
    by_cases hs : (decide ((r.requests_last_hour : Int) - (sumVals r.origins_last_hour : Int) > 0)
        || decide ((r.requests_previous_hour : Int) - (sumVals r.origins_previous_hour : Int) > 0)
        || decide (effectiveNoOrigin r w > 0)) = true
    · rw [if_pos hs] at hf
      injection hf with hf
      obtain ⟨h1, h2⟩ := Prod.mk.injEq .. ▸ hf
      exact ⟨r, hrmem, h1, h2.symm⟩
    · rw [if_neg hs] at hf
      cases hf

/-- Witness for claim C3 (amended): a row whose 12 hourly requests carry
no origin is blocked at limit 10 with weight 1. -/
theorem claim_C3_witness :
    (("198.51.100.9").data) ∈
      (pollRateLimitDataIp [rowNoOriginEx] 1 true 10 1000).blockedIPs :=
  (claim_C3_amended [rowNoOriginEx] 1 true 10 1000
    (("198.51.100.9").data) (by norm_num)).1.mpr
    ⟨rowNoOriginEx, by simp, rfl, Or.inl (by norm_num [rowNoOriginEx]),
      by norm_num [effectiveNoOrigin, sumVals, rowNoOriginEx]⟩

theorem countHistKey_eq_zero (hist : List HistRow) (ts : Nat) (ip : Str)
    (h : histHasKey hist ts ip = false) : countHistKey hist ts ip = 0 := by
  have hnil : hist.filter (fun h' => decide (h'.hour_timestamp = ts) && decide (h'.ip = ip)) = [] := by
    rw [List.filter_eq_nil_iff]
    simp only [histHasKey, List.any_eq_false] at h
    exact h
  simp [countHistKey, hnil]

theorem countHistKey_insertHistIgnore (hist : List HistRow) (h : HistRow) (ts : Nat) (ip : Str) :
    countHistKey (insertHistIgnore hist h) ts ip ≤ max (countHistKey hist ts ip) 1 := by
  unfold insertHistIgnore
  split
  · exact le_max_left _ _
  · rename_i hk
    by_cases hkey : h.hour_timestamp = ts ∧ h.ip = ip
    · have h0 : countHistKey hist ts ip = 0 := by
        apply countHistKey_eq_zero
        rw [← hkey.1, ← hkey.2]
        simpa using hk
      have h1 : countHistKey (hist ++ [h]) ts ip ≤ countHistKey hist ts ip + 1 := by
        simp only [countHistKey, List.filter_append, List.length_append]
        have : (List.filter (fun h' => decide (h'.hour_timestamp = ts) && decide (h'.ip = ip)) [h]).length ≤ 1 := by
          simp only [List.filter]
          split <;> simp
        omega
      rw [h0] at h1 ⊢
      simpa using h1
    · have hp : (decide (h.hour_timestamp = ts) && decide (h.ip = ip)) = false := by
        rcases Decidable.em (h.hour_timestamp = ts) with h1 | h1
        · have h2 : ¬ h.ip = ip := fun h2 => hkey ⟨h1, h2⟩
          simp [h1, h2]
        · simp [h1]
      have : countHistKey (hist ++ [h]) ts ip = countHistKey hist ts ip := by
        simp [countHistKey, List.filter_append, List.filter, hp]
      rw [this]
      exact le_max_left _ _

theorem countHistKey_captureHourlySnapshot (hourTs : Nat) (flag : Bool)
    (table : List TableRow) (hist : List HistRow) (ts : Nat) (ip : Str) :
    countHistKey (captureHourlySnapshot hourTs flag table hist) ts ip
      ≤ max (countHistKey hist ts ip) 1 := by
  unfold captureHourlySnapshot
  generalize table.filter (fun r => decide (r.requests_last_hour > 0)) = rows
  induction rows generalizing hist with
  | nil => exact le_max_left _ _
  | cons x rest ih =>
    simp only [List.foldl_cons]
    refine (ih _).trans ?_
    refine (max_le_max (countHistKey_insertHistIgnore hist (mkSnapshotRow hourTs flag x) ts ip)
      (le_refl 1)).trans ?_
    rw [max_assoc, max_self]

theorem mem_insertHistIgnore (hist : List HistRow) (h x : HistRow) (hx : x ∈ hist) :
    x ∈ insertHistIgnore hist h := by
  unfold insertHistIgnore
  split
  · exact hx
  · simp [hx]

theorem mem_snapshot_foldl (hourTs : Nat) (flag : Bool) (rows : List TableRow)
    (hist : List HistRow) (x : HistRow) (hx : x ∈ hist) :
    x ∈ rows.foldl (fun acc r => insertHistIgnore acc (mkSnapshotRow hourTs flag r)) hist := by
  induction rows generalizing hist with
  | nil => exact hx
  | cons y rest ih =>
    simp only [List.foldl_cons]
    exact ih _ (mem_insertHistIgnore _ _ _ hx)

theorem histHasKey_insertHistIgnore_false (hist : List HistRow) (h : HistRow) (ts : Nat)
    (ip : Str) (hk : histHasKey hist ts ip = false) (hne : h.ip ≠ ip) :
    histHasKey (insertHistIgnore hist h) ts ip = false := by
  unfold insertHistIgnore
  split
  · exact hk
  · simp only [histHasKey, List.any_append, Bool.or_eq_false_iff]
    exact ⟨hk, by simp [hne]⟩

theorem mem_captureHourlySnapshot_foldl (hourTs : Nat) (flag : Bool)
    (rows : List TableRow) (hist : List HistRow) (r : TableRow)
    (hmem : r ∈ rows) (hnodup : (rows.map TableRow.ip).Nodup)
    (habs : histHasKey hist hourTs r.ip = false) :
    mkSnapshotRow hourTs flag r
      ∈ rows.foldl (fun acc x => insertHistIgnore acc (mkSnapshotRow hourTs flag x)) hist := by
  induction rows generalizing hist with
  | nil => cases hmem
  | cons x rest ih =>
    simp only [List.map_cons, List.nodup_cons] at hnodup
    simp only [List.foldl_cons]
    rcases List.mem_cons.mp hmem with hrx | hrrest
    · subst hrx
      have hins : insertHistIgnore hist (mkSnapshotRow hourTs flag r)
          = hist ++ [mkSnapshotRow hourTs flag r] := by
        unfold insertHistIgnore
        rw [if_neg]
        simp [mkSnapshotRow, habs]
      rw [hins]
      exact mem_snapshot_foldl _ _ _ _ _ (by simp)
    · have hne : x.ip ≠ r.ip := by
        intro he
        exact hnodup.1 (he ▸ List.mem_map_of_mem TableRow.ip hrrest)
      refine ih _ hrrest hnodup.2
        (histHasKey_insertHistIgnore_false _ _ _ _ habs ?_)
      simp only [mkSnapshotRow]
      exact hne

/-- Claim C4: when a store-adapter invocation crosses exactly one hour
boundary (and the sliding-window and hourly-origin columns exist, with
the daily cleanup not due), every row with `requests_last_hour > 0` and
no existing history row for `(lastGlobalReset, ip)` yields a history row
keyed by the previous cached reset carrying the pre-reset counters (so
the snapshot reads the values before zeroing), at most one history row
per key is ever accumulated, the previous-hour fields receive the old
current-hour values with the current-hour fields zeroed, and the cached
reset advances; when more than one hour elapsed, both windows are
cleared instead. -/
theorem claim_C4 (st : StoreState) (now t c : Nat)
    (hlast : st.lastGlobalReset = some t)
    (hclean : st.lastCleanupTimestamp = some c)
    (hcrecent : now - c < 86400)
    (hnodup : (st.ip_table.map TableRow.ip).Nodup) :
    (getStartOfCurrentHour now = t + 3600 →
      ((resetHourlyCounters now true true st).ip_history_table
          = captureHourlySnapshot t true st.ip_table st.ip_history_table)
      ∧ (∀ r ∈ st.ip_table, 0 < r.requests_last_hour →
          histHasKey st.ip_history_table t r.ip = false →
          ({ hour_timestamp := t, ip := r.ip, request_count := r.requests_last_hour,
             origins := r.origins_last_hour } : HistRow)
            ∈ (resetHourlyCounters now true true st).ip_history_table)
      ∧ (∀ ts ip, countHistKey (resetHourlyCounters now true true st).ip_history_table ts ip
          ≤ max (countHistKey st.ip_history_table ts ip) 1)
      ∧ ((resetHourlyCounters now true true st).ip_table
          = st.ip_table.map fun r =>
              { r with requests_previous_hour := r.requests_last_hour,
                       origins_previous_hour := r.origins_last_hour,
                       requests_last_hour := 0, origins_last_hour := [],
                       last_reset_timestamp := t + 3600 })
      ∧ (resetHourlyCounters now true true st).lastGlobalReset = some (t + 3600))
    ∧ (getStartOfCurrentHour now > t + 3600 →
        (resetHourlyCounters now true true st).ip_table
          = st.ip_table.map fun r =>
              { r with requests_previous_hour := 0, origins_previous_hour := [],
                       requests_last_hour := 0, origins_last_hour := [],
                       last_reset_timestamp := getStartOfCurrentHour now }) := by
  constructor
  · intro hone
    have hgt : getStartOfCurrentHour now > t := by omega
    have hnotmore : ¬ (getStartOfCurrentHour now - t > 3600) := by omega
    have hcleanup : cleanupOldHistory now st.lastCleanupTimestamp
        (captureHourlySnapshot t true st.ip_table st.ip_history_table)
        = (st.lastCleanupTimestamp,
           captureHourlySnapshot t true st.ip_table st.ip_history_table) := by
      rw [hclean]
      simp [cleanupOldHistory, hcrecent]
    have hres : resetHourlyCounters now true true st
        = { lastGlobalReset := some (getStartOfCurrentHour now)
            lastCleanupTimestamp := st.lastCleanupTimestamp
            ip_table := st.ip_table.map
              (shiftRow true true (decide (getStartOfCurrentHour now - t > 3600))
                (getStartOfCurrentHour now))
            ip_history_table := captureHourlySnapshot t true st.ip_table st.ip_history_table } := by
      simp only [resetHourlyCounters, hlast, if_pos hgt, hcleanup]
    refine ⟨?_, ?_, ?_, ?_, ?_⟩
    · rw [hres]
    · intro r hr hpos habs
      rw [hres]
      have hmemf : r ∈ st.ip_table.filter (fun r' => decide (r'.requests_last_hour > 0)) :=
        List.mem_filter.mpr ⟨hr, by simpa using hpos⟩
      have hnodupf : ((st.ip_table.filter (fun r' => decide (r'.requests_last_hour > 0))).map
          TableRow.ip).Nodup :=
        ((List.filter_sublist st.ip_table).map TableRow.ip).nodup hnodup
      have := mem_captureHourlySnapshot_foldl t true
        (st.ip_table.filter (fun r' => decide (r'.requests_last_hour > 0)))
        st.ip_history_table r hmemf hnodupf habs
      simpa [captureHourlySnapshot, mkSnapshotRow] using this
    · intro ts ip
      rw [hres]
      exact countHistKey_captureHourlySnapshot t true st.ip_table st.ip_history_table ts ip
    · rw [hres]
      simp only [decide_eq_false hnotmore]
      rw [hone]
      apply List.map_congr_left
      intro r _
      simp [shiftRow]
    · rw [hres, hone]
  · intro hmore
    have hgt : getStartOfCurrentHour now > t := by omega
    have hismore : getStartOfCurrentHour now - t > 3600 := by omega
    have hres2 : (resetHourlyCounters now true true st).ip_table
        = st.ip_table.map
            (shiftRow true true (decide (getStartOfCurrentHour now - t > 3600))
              (getStartOfCurrentHour now)) := by
      simp only [resetHourlyCounters, hlast, if_pos hgt]
    rw [hres2]
    simp only [decide_eq_true hismore]
    apply List.map_congr_left
    intro r _
    simp [shiftRow]

/-- Witness for claim C4 at time 39605 (hour start 39600 = 36000 + 3600). -/
theorem claim_C4_witness :
    ({ hour_timestamp := 36000, ip := ("203.0.113.7").data, request_count := 120,
       origins := [(("dapp.example").data, 120)] } : HistRow)
      ∈ (resetHourlyCounters 39605 true true storeEx).ip_history_table ∧
    (resetHourlyCounters 39605 true true storeEx).ip_table
      = [{ ip := ("203.0.113.7").data, requests_last_hour := 0, requests_previous_hour := 120,
           origins_last_hour := [], origins_previous_hour := [(("dapp.example").data, 120)],
           origins := [(("dapp.example").data, 500)], last_reset_timestamp := 39600 }] :=
  ⟨((claim_C4 storeEx 39605 36000 39000 rfl rfl (by decide) (by decide)).1 (by decide)).2.1
      rowStoreEx (by simp [storeEx]) (by decide) (by decide),
   by
    have h := ((claim_C4 storeEx 39605 36000 39000 rfl rfl (by decide) (by decide)).1
      (by decide)).2.2.2.1
    rw [h]
    rfl⟩

theorem specLabelBad_implies_segmentBad (seg : Str) (h : specLabelBad seg = true) :
    segmentBad seg = true := by
  by_contra hc
  rw [Bool.not_eq_true] at hc
  have hparts := hc
  simp only [segmentBad, Bool.or_eq_false_iff] at hparts
  obtain ⟨⟨hA, hL⟩, hR⟩ := hparts
  rw [Bool.not_eq_false'] at hR
  have hreg := hR
  simp only [segRegexOk, Bool.and_eq_true] at hreg
  obtain ⟨⟨⟨hNE, hall⟩, hH⟩, hLst⟩ := hreg
  have hhead : seg.head? ≠ some '-' := by
    intro he
    rw [he] at hH
    exact absurd hH (by decide)
  have hlast : seg.getLast? ≠ some '-' := by
    intro he
    rw [he] at hLst
    exact absurd hLst (by decide)
  simp [specLabelBad, hA, hL, hall, hhead, hlast] at h

theorem specStructureBad_implies_dnsStructureBad (n : Str)
    (h : specStructureBad n = true) : dnsStructureBad n = true := by
  unfold specStructureBad at h
  rw [Bool.or_eq_true] at h
  rcases h with h | h
  · have h2 : (splitOnDot n).any segmentBad = true := by
      rw [List.any_eq_true] at h ⊢
      obtain ⟨seg, hseg, hbad⟩ := h
      exact ⟨seg, hseg, specLabelBad_implies_segmentBad seg hbad⟩
    simp [dnsStructureBad, h2]
  · simp [dnsStructureBad, h]

theorem specLocalLike_implies_isLocalOrigin (o : Str) (h : specLocalLike o = true) :
    isLocalOrigin o = true := by
  unfold specLocalLike at h
  simp only [Bool.or_eq_true] at h
  rcases h with (((((((((h | h) | h) | h) | h) | h) | h) | h) | h) | h)
  · have hl : (trimStr (toLowerStr o)).length = 0 := by
      simpa [List.isEmpty_iff, List.length_eq_zero] using h
    simp [isLocalOrigin, hl]
  · simp [isLocalOrigin, h]
  · simp [isLocalOrigin, h]
  · rw [Bool.and_eq_true] at h
    simp [isLocalOrigin, ipv4PatternHit, h.1]
  · simp [isLocalOrigin, h]
  · have hm : ':' ∈ trimStr (toLowerStr o) := by simpa using h
    simp [isLocalOrigin, hm]
  · simp [isLocalOrigin, h]
  · simp [isLocalOrigin, h]
  · simp [isLocalOrigin, h]
  · simp [isLocalOrigin, specStructureBad_implies_dnsStructureBad _ h]

/-- Claim C9: `filterOrigins` is idempotent, and every key classified
LocalLike by the spec's section-3 rules (over the canonicalized origin)
is absent from its result. -/
theorem claim_C9 :
    (∀ x : List (Str × Nat), filterOrigins (filterOrigins x) = filterOrigins x)
    ∧ ∀ (x : List (Str × Nat)) (p : Str × Nat), p ∈ filterOrigins x →
        specLocalLike p.fst = false := by
  constructor
  · intro x
    simp [filterOrigins, List.filter_filter]
  · intro x p hp
    have h1 : (!isLocalOrigin p.fst) = true := (List.mem_filter.mp hp).2
    by_contra h2
    have h3 := specLocalLike_implies_isLocalOrigin p.fst (by simpa using h2)
    rw [h3] at h1
    cases h1

/-- Witness for claim C9: the surviving key of a concrete filtered map is
not LocalLike. -/
theorem claim_C9_witness :
    ((("example.com").data, 2) ∈ filterOrigins originsC9Ex) ∧
      specLocalLike (("example.com").data) = false :=
  ⟨by decide, claim_C9.2 originsC9Ex ((("example.com").data), 2) (by decide)⟩

end RpcProxy
